import Mathlib

/-!
Verification of the rate-limiting and request-orchestration layer of a
chat-bot that fetches public profile metadata and video links from a
social video platform.

The definitions below are shallow embeddings of the Python source
(`bot.py`, `scraper.py`):

* the mutable per-user rate-limit dict entry becomes explicit state
  passing over `Option RateLimitEntry` (`none` models "user not in the
  dict yet"; the returned entry is the mutated state);
* wall-clock timestamps become integer seconds (`Int`), so
  `(current_time - start_time).total_seconds()` becomes integer
  subtraction;
* upstream I/O becomes an explicit "world" value that describes the
  upstream response for the one request the function makes, with a
  dedicated constructor/`none` for "the call raised an exception";
* every `try/except` that swallows an exception becomes a total function
  returning the fallback value on the exception constructor.
-/

/-! ## Rate limiter (`bot.py`, `check_rate_limit`) -/

def RATE_LIMIT_COUNT : Nat := 20

def RATE_LIMIT_WINDOW : Int := 300

def RATE_LIMIT_COOLDOWN : Int := 600

/-- One entry of the `rate_limit` dict: `{"count": int, "start_time": datetime}`. -/
structure RateLimitEntry where
  count : Nat
  start_time : Int
deriving DecidableEq

/-- The tuple returned by `check_rate_limit`: `(False, 0, 0)` becomes
`allowed`, `(True, minutes, seconds)` becomes `limited minutes seconds`. -/
inductive RateResult where
  | allowed : RateResult
  | limited : Nat → Nat → RateResult
deriving DecidableEq

def RateResult.isLimited : RateResult → Bool
  | RateResult.allowed => false
  | RateResult.limited _ _ => true

/-- The retry-after duration (in seconds) reported by a result:
`minutes * 60 + seconds` for a denial, `0` for an allowance. -/
def RateResult.retryAfter : RateResult → Nat
  | RateResult.allowed => 0
  | RateResult.limited m s => m * 60 + s

/-- `check_rate_limit(user_id)` for one user.  `st` is the user's entry in
the `rate_limit` dict (`none` when `user_id not in rate_limit`; the Python
code then inserts `{"count": 0, "start_time": current_time}`, modeled by
`Option.getD`).  Returns the result tuple together with the entry as left
in the dict after the call.  `minutes = int(remaining // 60)` and
`seconds = int(remaining % 60)` are taken on the positive `remaining`, so
they coincide with `Nat` division/modulo of `remaining.toNat`. -/
def check_rate_limit (current_time : Int) (st : Option RateLimitEntry) :
    RateResult × RateLimitEntry :=
  let user_data := st.getD { count := 0, start_time := current_time }
  if RATE_LIMIT_WINDOW < current_time - user_data.start_time then
    (RateResult.allowed, { count := 1, start_time := current_time })
  else if RATE_LIMIT_COUNT ≤ user_data.count then
    if RATE_LIMIT_COOLDOWN - (current_time - user_data.start_time) ≤ 0 then
      (RateResult.allowed, { count := 1, start_time := current_time })
    else
      (RateResult.limited
        ((RATE_LIMIT_COOLDOWN - (current_time - user_data.start_time)).toNat / 60)
        ((RATE_LIMIT_COOLDOWN - (current_time - user_data.start_time)).toNat % 60),
       user_data)
  else
    (RateResult.allowed, { count := user_data.count + 1, start_time := user_data.start_time })

/-- Run a sequence of `check_rate_limit` calls for one user at the given
times, threading the stored entry through. -/
def runChecks : List Int → Option RateLimitEntry → List RateResult × Option RateLimitEntry
  | [], st => ([], st)
  | t :: ts, st =>
    let step := check_rate_limit t st
    let rest := runChecks ts (some step.2)
    (step.1 :: rest.1, rest.2)

/-! ### Branch lemmas for `check_rate_limit` -/

theorem check_rate_limit_fresh (t : Int) :
    check_rate_limit t none = (RateResult.allowed, { count := 1, start_time := t }) := by
  simp [check_rate_limit, RATE_LIMIT_WINDOW, RATE_LIMIT_COUNT]

theorem check_window_reset (s : RateLimitEntry) (t : Int)
    (ht : 300 < t - s.start_time) :
    check_rate_limit t (some s) = (RateResult.allowed, { count := 1, start_time := t }) := by
  simp only [check_rate_limit, Option.getD_some, RATE_LIMIT_WINDOW, RATE_LIMIT_COUNT,
    RATE_LIMIT_COOLDOWN]
  rw [if_pos ht]

theorem check_increments (s : RateLimitEntry) (t : Int)
    (hc : s.count < 20) (ht : t - s.start_time ≤ 300) :
    check_rate_limit t (some s) =
      (RateResult.allowed, { count := s.count + 1, start_time := s.start_time }) := by
  simp only [check_rate_limit, Option.getD_some, RATE_LIMIT_WINDOW, RATE_LIMIT_COUNT,
    RATE_LIMIT_COOLDOWN]
  rw [if_neg (by omega), if_neg (by omega)]

theorem check_cooldown_limited (s : RateLimitEntry) (t : Int)
    (hc : 20 ≤ s.count) (ht : t - s.start_time ≤ 300) :
    check_rate_limit t (some s) =
      (RateResult.limited ((600 - (t - s.start_time)).toNat / 60)
        ((600 - (t - s.start_time)).toNat % 60), s) := by
  simp only [check_rate_limit, Option.getD_some, RATE_LIMIT_WINDOW, RATE_LIMIT_COUNT,
    RATE_LIMIT_COOLDOWN]
  rw [if_neg (by omega), if_pos (by omega), if_neg (by omega)]

theorem runChecks_allowed (ts : List Int) (c : Nat) (t₀ : Int)
    (hc : c + ts.length ≤ 20)
    (hts : ∀ t ∈ ts, t - t₀ ≤ 300) :
    runChecks ts (some { count := c, start_time := t₀ }) =
      (List.replicate ts.length RateResult.allowed,
       some { count := c + ts.length, start_time := t₀ }) := by
  induction ts generalizing c with
  | nil => simp [runChecks]
  | cons t ts ih =>
    have hlen : c + ts.length + 1 ≤ 20 := by
      simpa [Nat.add_assoc] using hc
    have hstep : check_rate_limit t (some { count := c, start_time := t₀ }) =
        (RateResult.allowed, { count := c + 1, start_time := t₀ }) :=
      check_increments _ _ (by show c < 20; omega) (hts t (List.mem_cons_self t ts))
    have hrest := ih (c + 1) (by omega) (fun x hx => hts x (List.mem_cons_of_mem _ hx))
    rw [show c + 1 + ts.length = c + (ts.length + 1) from by omega] at hrest
    simp [runChecks, hstep, hrest, List.replicate_succ]

/-! ### Claim theorems for the rate limiter -/

/-- C1: starting from fresh (absent) rate-limit state, with `N = 20` and
`W = 300`: a sequence of exactly 20 `check_rate_limit` calls whose times
all lie less than `W` seconds after the first call (which starts the
window) returns Allowed for all 20 calls, and a 21st call made within the
same window returns Limited. -/
theorem rate_limit_twenty_allowed_then_limited (ts : List Int) (t₀ tNext : Int)
    (hlen : ts.length = 20)
    (hhead : ts.head? = some t₀)
    (hts : ∀ t ∈ ts, t₀ ≤ t ∧ t - t₀ < 300)
    (hNext₁ : t₀ ≤ tNext) (hNext₂ : tNext - t₀ < 300) :
    (runChecks ts none).1 = List.replicate 20 RateResult.allowed ∧
    ((check_rate_limit tNext (runChecks ts none).2).1).isLimited = true := by
  cases ts with
  | nil => simp at hlen
  | cons a rest =>
    have ha : a = t₀ := by simpa using hhead
    subst ha
    have hrlen : rest.length = 19 := by simpa using hlen
    have hrest := runChecks_allowed rest 1 a (by omega)
      (fun x hx => (hts x (List.mem_cons_of_mem _ hx)).2.le)
    simp only [runChecks, check_rate_limit_fresh, hrest, hrlen]
    constructor
    · rfl
    · rw [check_cooldown_limited _ _ (by show 20 ≤ 1 + 19; omega)
        (by show tNext - a ≤ 300; omega)]
      rfl

theorem rate_limit_twenty_allowed_then_limited_witness :
    (runChecks (List.replicate 20 (0 : Int)) none).1 = List.replicate 20 RateResult.allowed ∧
    ((check_rate_limit 1 (runChecks (List.replicate 20 (0 : Int)) none).2).1).isLimited = true :=
  rate_limit_twenty_allowed_then_limited (List.replicate 20 (0 : Int)) 0 1
    (by decide) (by decide) (by decide) (by decide) (by decide)

/-- C2 (amended): for a user whose count has reached `N = 20` within the
current window, successive denied calls at strictly increasing times
report strictly decreasing retry-after durations, but those durations
always remain at least `C - W = 300` seconds (they never converge to 0);
and as soon as more than `W = 300` seconds (not `C = 600`) have elapsed
from the original window start, the next call returns Allowed with the
count reset to 1. -/
theorem rate_limit_denials_decrease_until_window_end (s : RateLimitEntry) (u v t : Int)
    (hc : 20 ≤ s.count)
    (hu : s.start_time ≤ u) (huv : u < v)
    (hv : ((check_rate_limit v (some s)).1).isLimited = true)
    (ht : 300 < t - s.start_time) :
    ((check_rate_limit u (some s)).1).isLimited = true ∧
    ((check_rate_limit v (some s)).1).retryAfter <
      ((check_rate_limit u (some s)).1).retryAfter ∧
    300 ≤ ((check_rate_limit v (some s)).1).retryAfter ∧
    check_rate_limit t (some s) = (RateResult.allowed, { count := 1, start_time := t }) := by
  have hvW : v - s.start_time ≤ 300 := by
    by_contra hgt
    rw [check_window_reset s v (by omega)] at hv
    simp [RateResult.isLimited] at hv
  have huW : u - s.start_time ≤ 300 := by omega
  rw [check_cooldown_limited s u hc huW, check_cooldown_limited s v hc hvW]
  refine ⟨rfl, ?_, ?_, check_window_reset s t ht⟩
  · simp only [RateResult.retryAfter]
    omega
  · simp only [RateResult.retryAfter]
    omega

theorem rate_limit_denials_decrease_until_window_end_witness :
    ((check_rate_limit 10 (some { count := 20, start_time := 0 })).1).isLimited = true ∧
    ((check_rate_limit 20 (some { count := 20, start_time := 0 })).1).retryAfter <
      ((check_rate_limit 10 (some { count := 20, start_time := 0 })).1).retryAfter ∧
    300 ≤ ((check_rate_limit 20 (some { count := 20, start_time := 0 })).1).retryAfter ∧
    check_rate_limit 301 (some { count := 20, start_time := 0 }) =
      (RateResult.allowed, { count := 1, start_time := 301 }) :=
  rate_limit_denials_decrease_until_window_end { count := 20, start_time := 0 } 10 20 301
    (by decide) (by decide) (by decide) (by decide) (by decide)

set_option maxRecDepth 10000 in
/-- C2 counterexample: from a reachable state in which the user has
exhausted the limit (20 calls at time 0), a call at time 599 — i.e. with
less than `C = 600` seconds elapsed from the original window start, when
the claim still requires a denial with retry-after 1 — already returns
Allowed, because the window-reset branch fires as soon as more than
`W = 300` seconds have elapsed. -/
theorem rate_limit_allows_before_cooldown_expiry :
    (check_rate_limit 599 ((runChecks (List.replicate 20 (0 : Int)) none).2)).1 =
      RateResult.allowed ∧
    (599 : Int) - 0 < 600 := by decide

/-- C3: for a user whose count has not reached the limit, a call made when
more than `W = 300` seconds have elapsed since the window start resets the
count to exactly 1 (discarding the prior count), advances the window start
to the current time, and returns Allowed. -/
theorem rate_limit_window_reset_discards_count (s : RateLimitEntry) (t : Int)
    (hc : s.count < 20) (ht : 300 < t - s.start_time) :
    check_rate_limit t (some s) = (RateResult.allowed, { count := 1, start_time := t }) :=
  check_window_reset s t ht

theorem rate_limit_window_reset_discards_count_witness :
    check_rate_limit 301 (some { count := 5, start_time := 0 }) =
      (RateResult.allowed, { count := 1, start_time := 301 }) :=
  rate_limit_window_reset_discards_count { count := 5, start_time := 0 } 301
    (by decide) (by decide)

/-- C9 (amended): whenever the cooldown branch of `check_rate_limit` is
entered (count has reached `N = 20` and at most `W = 300` seconds have
elapsed), the call returns Limited — so the inner branch that would treat
an expired cooldown (`remaining <= 0`) as a window reset is never taken —
and the reported remaining cooldown is at least (not strictly greater
than) `C - W = 300` seconds. -/
theorem rate_limit_cooldown_reset_branch_unreachable (s : RateLimitEntry) (t : Int)
    (hc : 20 ≤ s.count) (hW : t - s.start_time ≤ 300) :
    (check_rate_limit t (some s)).1 =
      RateResult.limited ((600 - (t - s.start_time)).toNat / 60)
        ((600 - (t - s.start_time)).toNat % 60) ∧
    300 ≤ ((check_rate_limit t (some s)).1).retryAfter := by
  rw [check_cooldown_limited s t hc hW]
  refine ⟨rfl, ?_⟩
  simp only [RateResult.retryAfter]
  omega

theorem rate_limit_cooldown_reset_branch_unreachable_witness :
    (check_rate_limit 0 (some { count := 20, start_time := 0 })).1 =
      RateResult.limited ((600 - ((0 : Int) - 0)).toNat / 60)
        ((600 - ((0 : Int) - 0)).toNat % 60) ∧
    300 ≤ ((check_rate_limit 0 (some { count := 20, start_time := 0 })).1).retryAfter :=
  rate_limit_cooldown_reset_branch_unreachable { count := 20, start_time := 0 } 0
    (by decide) (by decide)

set_option maxRecDepth 10000 in
/-- C9 counterexample: from a state reachable through `check_rate_limit`
calls alone (20 calls at time 0), the denied call at time 300 reports a
remaining cooldown of exactly 300 seconds — not strictly greater than
`C - W = 300` as the claim states. -/
theorem rate_limit_reports_exactly_the_gap :
    (check_rate_limit 300 ((runChecks (List.replicate 20 (0 : Int)) none).2)).1 =
      RateResult.limited 5 0 ∧
    (RateResult.limited 5 0).retryAfter = 300 := by decide

/-- C10: a `check_rate_limit` call that returns Limited leaves the user's
stored entry (count and start_time) completely unchanged: a denied request
consumes no request slot and does not move the window. -/
theorem rate_limit_denied_leaves_state_unchanged (s : RateLimitEntry) (t : Int)
    (m sec : Nat)
    (h : (check_rate_limit t (some s)).1 = RateResult.limited m sec) :
    (check_rate_limit t (some s)).2 = s := by
  by_cases hW : 300 < t - s.start_time
  · rw [check_window_reset s t hW] at h
    simp at h
  · by_cases hc : 20 ≤ s.count
    · rw [check_cooldown_limited s t hc (by omega)]
    · rw [check_increments s t (by omega) (by omega)] at h
      simp at h

theorem rate_limit_denied_leaves_state_unchanged_witness :
    (check_rate_limit 0 (some { count := 20, start_time := 0 })).2 =
      { count := 20, start_time := 0 } :=
  rate_limit_denied_leaves_state_unchanged { count := 20, start_time := 0 } 0 10 0
    (by decide)

/-! ## Profile scraping (`scraper.py`) -/

/-- Python `str.isspace` characters relevant to `str.strip()` (ASCII part;
the inputs the claims quantify over are ASCII identifiers/URLs). -/
def pyIsSpace (c : Char) : Bool :=
  c = ' ' || c = '\t' || c = '\n' || c = '\r' || c = '\x0b' || c = '\x0c'

/-- Python `s.strip(chars)` restricted to a character predicate: drop
matching characters from both ends. -/
def stripEnds (p : Char → Bool) (l : List Char) : List Char :=
  ((l.dropWhile p).reverse.dropWhile p).reverse

/-- Python `s.lstrip("@")`: drop leading `@` characters. -/
def lstripAt (l : List Char) : List Char := l.dropWhile (· == '@')

/-- `username.strip().lstrip("@").strip("/")` from `get_user_by_username`. -/
def normalizeInput (l : List Char) : List Char :=
  stripEnds (· == '/') (lstripAt (stripEnds pyIsSpace l))

/-- Does `l` start with `needle`? -/
def startsWithChars : List Char → List Char → Bool
  | [], _ => true
  | _ :: _, [] => false
  | a :: as, b :: bs => a == b && startsWithChars as bs

/-- Python `needle in haystack` (substring containment). -/
def containsSub (needle : List Char) : List Char → Bool
  | [] => startsWithChars needle []
  | c :: rest => startsWithChars needle (c :: rest) || containsSub needle rest

/-- The literal part of the pattern `tiktok\.com/@([^/?]+)`. -/
def tiktokAtPat : List Char := "tiktok.com/@".toList

/-- `re.search(r'tiktok\.com/@([^/?]+)', s)`: leftmost position where the
literal `tiktok.com/@` is followed by at least one character that is
neither `/` nor `?`; the group is the maximal such run. -/
def reSearchUser : List Char → Option (List Char)
  | [] => none
  | c :: rest =>
    if startsWithChars tiktokAtPat (c :: rest) then
      let g := ((c :: rest).drop tiktokAtPat.length).takeWhile
        (fun x => !(x == '/') && !(x == '?'))
      if g.isEmpty then reSearchUser rest else some g
    else reSearchUser rest

/-- The `bioLink` field of the user payload: Python inspects it with
`isinstance`, accepting a dict with a `link` entry or a plain string. -/
inductive BioLinkField where
  | asDict : Option String → BioLinkField
  | asStr : String → BioLinkField
deriving DecidableEq

/-- The fields of the raw `user` dict read by `_format_user`.  `none`
models an absent key (each read uses `.get` with the default shown in
`_format_user`). -/
structure UserDict where
  createTime : Option Int
  region : Option String
  language : Option String
  bioLink : Option BioLinkField
  uniqueId : Option String
  nickname : Option String
  id : Option String
  signature : Option String
  verified : Option Bool
  privateAccount : Option Bool
  avatarLarger : Option String
deriving DecidableEq

/-- The empty dict `{}` used as default for `user_info.get("user", {})`. -/
def UserDict.empty : UserDict :=
  { createTime := none, region := none, language := none, bioLink := none,
    uniqueId := none, nickname := none, id := none, signature := none,
    verified := none, privateAccount := none, avatarLarger := none }

/-- The fields of the raw `stats` dict read by `_format_user`. -/
structure StatsDict where
  followerCount : Option Int
  followingCount : Option Int
  heartCount : Option Int
  videoCount : Option Int
  friendCount : Option Int
  diggCount : Option Int
deriving DecidableEq

/-- The empty dict `{}` used as default for `user_info.get("stats", {})`. -/
def StatsDict.empty : StatsDict :=
  { followerCount := none, followingCount := none, heartCount := none,
    videoCount := none, friendCount := none, diggCount := none }

/-- Reversed digit list chopped into groups of three (for the thousands
separator of `f"{int(num):,}"`). -/
def chunk3 : List Char → List (List Char)
  | a :: b :: c :: rest => [a, b, c] :: chunk3 rest
  | [] => []
  | l => [l]

/-- `_format_number`: Python `f"{int(num):,}"` on an integer — decimal
digits with a comma every three from the right, `-` sign in front.  (The
`except (ValueError, TypeError)` path for non-numeric input is not
reachable from integer counters and is outside this embedding's domain.) -/
def _format_number (n : Int) : String :=
  let digits := (toString n.natAbs).toList
  let grouped := (List.intercalate [','] (chunk3 digits.reverse)).reverse
  if n < 0 then String.mk ('-' :: grouped) else String.mk grouped

def monthAbbrev : Nat → String
  | 1 => "Jan" | 2 => "Feb" | 3 => "Mar" | 4 => "Apr" | 5 => "May" | 6 => "Jun"
  | 7 => "Jul" | 8 => "Aug" | 9 => "Sep" | 10 => "Oct" | 11 => "Nov" | 12 => "Dec"
  | _ => ""

def pad2 (n : Nat) : String := if n < 10 then "0" ++ toString n else toString n

def pad4 (n : Nat) : String :=
  if n < 10 then "000" ++ toString n
  else if n < 100 then "00" ++ toString n
  else if n < 1000 then "0" ++ toString n
  else toString n

/-- Proleptic-Gregorian civil date from days since the Unix epoch
(the standard era-based algorithm): year, month, day. -/
def civilFromDays (z0 : Int) : Int × Nat × Nat :=
  let z := z0 + 719468
  let era := z.fdiv 146097
  let doe := (z - era * 146097).toNat
  let yoe := (doe - doe / 1460 + doe / 36524 - doe / 146096) / 365
  let doy := doe - (365 * yoe + yoe / 4 - yoe / 100)
  let mp := (5 * doy + 2) / 153
  let d := doy - (153 * mp + 2) / 5 + 1
  let m := if mp < 10 then mp + 3 else mp - 9
  ((yoe : Int) + era * 400 + (if m ≤ 2 then 1 else 0), m, d)

/-- `datetime.fromtimestamp(t, tz=utc).strftime("%d %b %Y %H:%M UTC")`.
Out-of-range years, on which Python raises `ValueError`/`OSError` (caught
in `_format_user`), give `"N/A"` directly. -/
def formatTimestamp (t : Int) : String :=
  let days := t.fdiv 86400
  let rem := (t - days * 86400).toNat
  let ymd := civilFromDays days
  if ymd.1 < 1 || 9999 < ymd.1 then "N/A"
  else
    pad2 ymd.2.2 ++ " " ++ monthAbbrev ymd.2.1 ++ " " ++ pad4 ymd.1.toNat ++ " " ++
      pad2 (rem / 3600) ++ ":" ++ pad2 (rem % 3600 / 60) ++ " UTC"

/-- The `REGION_MAP` table of `_resolve_region`. -/
def REGION_MAP (code : String) : Option String :=
  match code with
  | "US" => some "United States 🇺🇸" | "GB" => some "United Kingdom 🇬🇧"
  | "CA" => some "Canada 🇨🇦" | "AU" => some "Australia 🇦🇺"
  | "DE" => some "Germany 🇩🇪" | "FR" => some "France 🇫🇷"
  | "SA" => some "Saudi Arabia 🇸🇦" | "AE" => some "UAE 🇦🇪"
  | "EG" => some "Egypt 🇪🇬" | "KW" => some "Kuwait 🇰🇼"
  | "QA" => some "Qatar 🇶🇦" | "BH" => some "Bahrain 🇧🇭"
  | "OM" => some "Oman 🇴🇲" | "JO" => some "Jordan 🇯🇴"
  | "IQ" => some "Iraq 🇮🇶" | "LB" => some "Lebanon 🇱🇧"
  | "MA" => some "Morocco 🇲🇦" | "DZ" => some "Algeria 🇩🇿"
  | "TN" => some "Tunisia 🇹🇳" | "LY" => some "Libya 🇱🇾"
  | "SD" => some "Sudan 🇸🇩" | "YE" => some "Yemen 🇾🇪"
  | "PS" => some "Palestine 🇵🇸" | "SY" => some "Syria 🇸🇾"
  | "TR" => some "Turkey 🇹🇷" | "IN" => some "India 🇮🇳"
  | "BR" => some "Brazil 🇧🇷" | "MX" => some "Mexico 🇲🇽"
  | "JP" => some "Japan 🇯🇵" | "KR" => some "South Korea 🇰🇷"
  | "ID" => some "Indonesia 🇮🇩" | "PH" => some "Philippines 🇵🇭"
  | "TH" => some "Thailand 🇹🇭" | "VN" => some "Vietnam 🇻🇳"
  | "MY" => some "Malaysia 🇲🇾" | "PK" => some "Pakistan 🇵🇰"
  | "RU" => some "Russia 🇷🇺" | "IT" => some "Italy 🇮🇹"
  | "ES" => some "Spain 🇪🇸" | "NL" => some "Netherlands 🇳🇱"
  | "PL" => some "Poland 🇵🇱" | "SE" => some "Sweden 🇸🇪"
  | "NG" => some "Nigeria 🇳🇬" | "ZA" => some "South Africa 🇿🇦"
  | "CO" => some "Colombia 🇨🇴" | "AR" => some "Argentina 🇦🇷"
  | "CL" => some "Chile 🇨🇱" | "PE" => some "Peru 🇵🇪"
  | _ => none

/-- `_resolve_region(region, language)`: the `language` argument is
accepted but never read by the source body.  `region` falsy (absent or
empty) gives `"N/A"`; a known upper-cased code gives its label; any other
code is returned upper-cased. -/
def _resolve_region (region : Option String) (language : Option String) : String :=
  match region with
  | none => "N/A"
  | some r =>
    if r = "" then "N/A"
    else
      match REGION_MAP r.toUpper with
      | some label => label
      | none => r.toUpper

/-- The `LANG_MAP` table of `_lang_code_to_name`. -/
def LANG_MAP (code : String) : Option String :=
  match code with
  | "en" => some "English 🇺🇸" | "ar" => some "العربية 🇸🇦"
  | "fr" => some "Français 🇫🇷" | "de" => some "Deutsch 🇩🇪"
  | "es" => some "Español 🇪🇸" | "pt" => some "Português 🇧🇷"
  | "ja" => some "日本語 🇯🇵" | "ko" => some "한국어 🇰🇷"
  | "zh" => some "中文 🇨🇳" | "hi" => some "हिन्दी 🇮🇳"
  | "tr" => some "Türkçe 🇹🇷" | "ru" => some "Русский 🇷🇺"
  | "id" => some "Bahasa Indonesia 🇮🇩" | "th" => some "ไทย 🇹🇭"
  | "vi" => some "Tiếng Việt 🇻🇳" | "it" => some "Italiano 🇮🇹"
  | "nl" => some "Nederlands 🇳🇱" | "pl" => some "Polski 🇵🇱"
  | "ms" => some "Bahasa Melayu 🇲🇾" | "tl" => some "Filipino 🇵🇭"
  | "ur" => some "اردو 🇵🇰" | "fa" => some "فارسی 🇮🇷"
  | _ => none

/-- `_lang_code_to_name(code)`: falsy code gives `"N/A"`, a known
lower-cased code gives its name, anything else is passed through. -/
def _lang_code_to_name (code : Option String) : String :=
  match code with
  | none => "N/A"
  | some c =>
    if c = "" then "N/A"
    else
      match LANG_MAP c.toLower with
      | some n => n
      | none => c

/-- Python `x or None` on an optional string: an empty string is falsy
and collapses to `None`. -/
def pyOrNone (o : Option String) : Option String :=
  match o with
  | some s => if s = "" then none else some s
  | none => none

/-- Python `s or "N/A"` on a string. -/
def pyOrNA (s : String) : String := if s = "" then "N/A" else s

/-- The dict returned by `_format_user` (key `"private"` is spelled
`privateAccount` here because `private` is a Lean keyword; `"error": False`
is implied by the record existing at all — see `UserLookupResult`). -/
structure FormattedUser where
  username : String
  nickname : String
  user_id : String
  bio : String
  verified : Bool
  privateAccount : Bool
  followers : String
  following : String
  likes : String
  videos : String
  friends : String
  digg : String
  created : String
  region : String
  language : String
  bio_link : String
  profile_pic : String
  profile_link : String
  raw_user : UserDict
  raw_stats : StatsDict
deriving DecidableEq

/-- `_format_user(user, stats)`. -/
def _format_user (user : UserDict) (stats : StatsDict) : FormattedUser :=
  let create_time := user.createTime.getD 0
  let created_str := if create_time ≠ 0 then formatTimestamp create_time else "N/A"
  let region := pyOrNone user.region
  let language := pyOrNone user.language
  let bio_link :=
    match user.bioLink with
    | some (BioLinkField.asDict link) => link.getD ""
    | some (BioLinkField.asStr s) => s
    | none => ""
  { username := user.uniqueId.getD "N/A",
    nickname := user.nickname.getD "N/A",
    user_id := user.id.getD "N/A",
    bio := pyOrNA (user.signature.getD "N/A"),
    verified := user.verified.getD false,
    privateAccount := user.privateAccount.getD false,
    followers := _format_number (stats.followerCount.getD 0),
    following := _format_number (stats.followingCount.getD 0),
    likes := _format_number (stats.heartCount.getD 0),
    videos := _format_number (stats.videoCount.getD 0),
    friends := _format_number (stats.friendCount.getD 0),
    digg := _format_number (stats.diggCount.getD 0),
    created := created_str,
    region := _resolve_region region language,
    language := _lang_code_to_name language,
    bio_link := pyOrNA bio_link,
    profile_pic := user.avatarLarger.getD "",
    profile_link := "https://www.tiktok.com/@" ++ user.uniqueId.getD "",
    raw_user := user,
    raw_stats := stats }

/-- `userInfo` as used by the callers: the `user` and `stats` sub-dicts
(`none` models an absent key, defaulted to `{}`). -/
structure UserInfo where
  user : Option UserDict
  stats : Option StatsDict
deriving DecidableEq

/-- The body of the profile-page HTTP response, as far as
`_scrape_tiktok_page` inspects it. -/
inductive PageBody where
  | noScriptTag : PageBody
  | unparsable : PageBody
  | parsed : Option UserInfo → Option Int → PageBody
deriving DecidableEq

/-- The upstream behaviour of the one `GET` issued by
`_scrape_tiktok_page`: either the transport raised, or a response with a
status code and a body arrived. -/
inductive ScrapeWorld where
  | exception : ScrapeWorld
  | response : Nat → PageBody → ScrapeWorld
deriving DecidableEq

/-- `_scrape_tiktok_page(url)`: `None` unless the response is a 200 whose
body contains the rehydration script tag, parses as JSON, carries a truthy
`userInfo` and a `statusCode` equal to 0.  The surrounding
`except Exception: return None` makes the function total. -/
def _scrape_tiktok_page (w : ScrapeWorld) : Option UserInfo :=
  match w with
  | ScrapeWorld.exception => none
  | ScrapeWorld.response status_code body =>
    if status_code ≠ 200 then none
    else
      match body with
      | PageBody.noScriptTag => none
      | PageBody.unparsable => none
      | PageBody.parsed user_info statusCode =>
        match user_info with
        | none => none
        | some ui => if statusCode = some 0 then some ui else none

/-- The dict returned by `get_user_by_username` / `get_user_by_id`:
`{"error": True}` or the `_format_user` record (with `"error": False`). -/
inductive UserLookupResult where
  | err : UserLookupResult
  | ok : FormattedUser → UserLookupResult
deriving DecidableEq

/-- `get_user_by_username(username)`.  `w` is the upstream behaviour of
the page fetch (the early `{"error": True}` return for a URL without an
extractable username never performs that fetch). -/
def get_user_by_username (username : String) (w : ScrapeWorld) : UserLookupResult :=
  let u1 := normalizeInput username.toList
  let step2 : Option (List Char) :=
    if containsSub ("tiktok.com".toList) u1 then
      match reSearchUser u1 with
      | some g => some g
      | none => none
    else some u1
  match step2 with
  | none => UserLookupResult.err
  | some u2 =>
    let _username := lstripAt u2
    match _scrape_tiktok_page w with
    | none => UserLookupResult.err
    | some ui =>
      UserLookupResult.ok (_format_user (ui.user.getD UserDict.empty) (ui.stats.getD StatsDict.empty))

/-! ## Video resolution (`scraper.py`, `get_video_no_watermark`) -/

/-- Python truthiness of an optional string: present and non-empty. -/
def truthyOpt (o : Option String) : Bool :=
  match o with
  | some s => !(s == "")
  | none => false

/-- Python `a or b` on two optional strings (used for
`downloadAddr or playAddr` and `hdplay or play`). -/
def pyOr (a b : Option String) : Option String :=
  if truthyOpt a then a else b

/-- The normalized video dict shared by all three fetch methods:
`{"error": False, "video_url": ..., "music_url": ..., "title": ...,
"author": ..., "duration": ..., "cover": ...}`. -/
structure VideoResult where
  video_url : Option String
  music_url : Option String
  title : String
  author : String
  duration : Int
  cover : Option String
deriving DecidableEq

/-- The fields of the `yt_dlp` info dict read by `_ytdlp_download`:
`info.get("url")` and, per entry of `info.get("formats")`, `fmt.get("url")`. -/
structure YtdlpInfo where
  url : Option String
  formats : List (Option String)
  title : Option String
  uploader : Option String
  duration : Option Int
  thumbnail : Option String
deriving DecidableEq

/-- `_ytdlp_download(url)`.  The argument is the info dict produced by the
extractor (`none` models a raised exception or a falsy `info`, both of
which make the Python function return `None`).  The `for fmt in
reversed(info["formats"])` loop, entered only when `info.get("url")` is
falsy and `formats` is truthy, is the first truthy `url` of the reversed
list.  A record is returned only when the chosen `video_url` is truthy. -/
def _ytdlp_download (w : Option YtdlpInfo) : Option VideoResult :=
  match w with
  | none => none
  | some info =>
    let video_url :=
      if !truthyOpt info.url && !info.formats.isEmpty then
        match info.formats.reverse.find? truthyOpt with
        | some u => u
        | none => info.url
      else info.url
    if truthyOpt video_url then
      some { video_url := video_url, music_url := none, title := info.title.getD "",
             author := info.uploader.getD "", duration := info.duration.getD 0,
             cover := info.thumbnail }
    else none

/-- The parts of the video page's rehydration payload read by method 2 of
`get_video_no_watermark` (`itemInfo.itemStruct` and below; `none` on an
optional field models an absent key after the defaulted `.get` chains). -/
structure PageVideo where
  downloadAddr : Option String
  playAddr : Option String
  musicPlayUrl : Option String
  desc : Option String
  authorUniqueId : Option String
  duration : Option Int
  cover : Option String
deriving DecidableEq

/-- Method 2 of `get_video_no_watermark`: direct page scrape.  The
argument is `none` when the `GET` raised, the script tag was missing, or
the JSON did not parse (all folded into falling through); a record is
returned only when `downloadAddr or playAddr` is truthy. -/
def scrape_video_page (w : Option PageVideo) : Option VideoResult :=
  match w with
  | none => none
  | some p =>
    let download_url := pyOr p.downloadAddr p.playAddr
    if truthyOpt download_url then
      some { video_url := download_url, music_url := p.musicPlayUrl,
             title := p.desc.getD "", author := p.authorUniqueId.getD "",
             duration := p.duration.getD 0, cover := p.cover }
    else none

/-- The `data` object of a tikwm API reply as read by method 3. -/
structure TikwmData where
  hdplay : Option String
  play : Option String
  music : Option String
  title : Option String
  author_unique_id : Option String
  duration : Option Int
  cover : Option String
deriving DecidableEq

/-- A parsed tikwm API reply: its `code` field and its `data` object
(`none` models an absent or falsy `data`). -/
structure TikwmResponse where
  code : Option Int
  data : Option TikwmData
deriving DecidableEq

/-- Method 3 of `get_video_no_watermark`: the tikwm API fallback.  The
argument is `none` when the `POST` or `.json()` raised.  Note that the
returned record's `video_url` is `hdplay or play` with no truthiness
check, unlike methods 1 and 2. -/
def tikwm_fallback (w : Option TikwmResponse) : Option VideoResult :=
  match w with
  | none => none
  | some resp =>
    if resp.code = some 0 then
      match resp.data with
      | some vd =>
        some { video_url := pyOr vd.hdplay vd.play, music_url := vd.music,
               title := vd.title.getD "", author := vd.author_unique_id.getD "",
               duration := vd.duration.getD 0, cover := vd.cover }
      | none => none
    else none

/-- The upstream behaviour of one `get_video_no_watermark` call: whether
`yt_dlp` is importable (`HAS_YTDLP`) and the reply each of the three
methods would obtain.  (The preliminary short-link redirect resolution
only rewrites the URL — on failure the original URL is kept — and does
not influence which strategies run, so it needs no field here.) -/
structure VideoFetchWorld where
  ytdlp_available : Bool
  ytdlp : Option YtdlpInfo
  page : Option PageVideo
  tikwm : Option TikwmResponse
deriving DecidableEq

/-- `get_video_no_watermark(url)`: method 1 (yt-dlp, only when
`HAS_YTDLP`), then method 2 (page scrape), then method 3 (tikwm API);
`none` models the final `{"error": True}`. -/
def get_video_no_watermark (w : VideoFetchWorld) : Option VideoResult :=
  match (if w.ytdlp_available then _ytdlp_download w.ytdlp else none) with
  | some r => some r
  | none =>
    match scrape_video_page w.page with
    | some r => some r
    | none => tikwm_fallback w.tikwm

/-- The three fetch strategies of `get_video_no_watermark`, in source
order. -/
inductive Strategy where
  | ytdlp : Strategy
  | pageScrape : Strategy
  | tikwmApi : Strategy
deriving DecidableEq

/-- `get_video_no_watermark` instrumented with the list of strategies it
invokes (the spec's "call-count instrumentation on mock strategies"):
same control flow, second component records each strategy as it is
attempted.  Method 1 counts as invoked only when `HAS_YTDLP` holds, since
the Python code guards the call itself. -/
def get_video_no_watermark_traced (w : VideoFetchWorld) :
    Option VideoResult × List Strategy :=
  let inv1 : List Strategy := if w.ytdlp_available then [Strategy.ytdlp] else []
  match (if w.ytdlp_available then _ytdlp_download w.ytdlp else none) with
  | some r => (some r, inv1)
  | none =>
    match scrape_video_page w.page with
    | some r => (some r, inv1 ++ [Strategy.pageScrape])
    | none => (tikwm_fallback w.tikwm, inv1 ++ [Strategy.pageScrape, Strategy.tikwmApi])

/-! ### Claim theorems for the resolvers -/

theorem ytdlp_video_url_truthy (wi : Option YtdlpInfo) (r : VideoResult)
    (h : _ytdlp_download wi = some r) : truthyOpt r.video_url = true := by
  cases wi with
  | none => simp [_ytdlp_download] at h
  | some info =>
    simp only [_ytdlp_download] at h
    split at h
    · split at h
      next hcond =>
        injection h with h2
        subst h2
        exact hcond
      next => exact absurd h (by simp)
    · split at h
      next hcond =>
        injection h with h2
        subst h2
        exact hcond
      next => exact absurd h (by simp)

theorem scrape_video_url_truthy (wp : Option PageVideo) (r : VideoResult)
    (h : scrape_video_page wp = some r) : truthyOpt r.video_url = true := by
  cases wp with
  | none => simp [scrape_video_page] at h
  | some p =>
    simp only [scrape_video_page] at h
    split at h
    next hcond =>
      injection h with h2
      subst h2
      exact hcond
    next => exact absurd h (by simp)

/-- C4: `get_video_no_watermark` attempts its strategies in the fixed
order yt-dlp (specialized extraction library), page scrape, tikwm
(aggregation API): the invoked-strategy trace is always an in-order
sublist of that chain, the traced run returns the same result as the
plain function, a yt-dlp success means only yt-dlp was invoked and its
record is returned, and a page-scrape success means the tikwm fallback is
never invoked. -/
theorem video_strategies_ordered_first_success_wins (w : VideoFetchWorld) :
    ((get_video_no_watermark_traced w).2).Sublist
      [Strategy.ytdlp, Strategy.pageScrape, Strategy.tikwmApi] ∧
    (get_video_no_watermark_traced w).1 = get_video_no_watermark w ∧
    (∀ r : VideoResult, w.ytdlp_available = true → _ytdlp_download w.ytdlp = some r →
      get_video_no_watermark_traced w = (some r, [Strategy.ytdlp])) ∧
    (∀ r : VideoResult, scrape_video_page w.page = some r →
      Strategy.tikwmApi ∉ (get_video_no_watermark_traced w).2) := by
  cases hav : w.ytdlp_available with
  | false =>
    rcases h2 : scrape_video_page w.page with _ | r2
    · have htr : get_video_no_watermark_traced w =
          (tikwm_fallback w.tikwm, [Strategy.pageScrape, Strategy.tikwmApi]) := by
        simp [get_video_no_watermark_traced, hav, h2]
      have hpl : get_video_no_watermark w = tikwm_fallback w.tikwm := by
        simp [get_video_no_watermark, hav, h2]
      refine ⟨?_, ?_, ?_, ?_⟩
      · rw [htr]
        show List.Sublist [Strategy.pageScrape, Strategy.tikwmApi]
          [Strategy.ytdlp, Strategy.pageScrape, Strategy.tikwmApi]
        exact List.Sublist.cons _ (List.Sublist.refl _)
      · rw [htr, hpl]
      · intro r havail _
        exact Bool.noConfusion havail
      · intro r hr
        exact Option.noConfusion hr
    · have htr : get_video_no_watermark_traced w = (some r2, [Strategy.pageScrape]) := by
        simp [get_video_no_watermark_traced, hav, h2]
      have hpl : get_video_no_watermark w = some r2 := by
        simp [get_video_no_watermark, hav, h2]
      refine ⟨?_, ?_, ?_, ?_⟩
      · rw [htr]
        show List.Sublist [Strategy.pageScrape]
          [Strategy.ytdlp, Strategy.pageScrape, Strategy.tikwmApi]
        exact List.Sublist.cons _ (List.Sublist.cons₂ _ (List.nil_sublist _))
      · rw [htr, hpl]
      · intro r havail _
        exact Bool.noConfusion havail
      · intro r _
        rw [htr]
        simp
  | true =>
    rcases h1 : _ytdlp_download w.ytdlp with _ | r1
    · rcases h2 : scrape_video_page w.page with _ | r2
      · have htr : get_video_no_watermark_traced w =
            (tikwm_fallback w.tikwm,
             [Strategy.ytdlp, Strategy.pageScrape, Strategy.tikwmApi]) := by
          simp [get_video_no_watermark_traced, hav, h1, h2]
        have hpl : get_video_no_watermark w = tikwm_fallback w.tikwm := by
          simp [get_video_no_watermark, hav, h1, h2]
        refine ⟨?_, ?_, ?_, ?_⟩
        · rw [htr]
        · rw [htr, hpl]
        · intro r _ hdl
          exact Option.noConfusion hdl
        · intro r hr
          exact Option.noConfusion hr
      · have htr : get_video_no_watermark_traced w =
            (some r2, [Strategy.ytdlp, Strategy.pageScrape]) := by
          simp [get_video_no_watermark_traced, hav, h1, h2]
        have hpl : get_video_no_watermark w = some r2 := by
          simp [get_video_no_watermark, hav, h1, h2]
        refine ⟨?_, ?_, ?_, ?_⟩
        · rw [htr]
          show List.Sublist [Strategy.ytdlp, Strategy.pageScrape]
            [Strategy.ytdlp, Strategy.pageScrape, Strategy.tikwmApi]
          exact List.Sublist.cons₂ _ (List.Sublist.cons₂ _ (List.nil_sublist _))
        · rw [htr, hpl]
        · intro r _ hdl
          exact Option.noConfusion hdl
        · intro r _
          rw [htr]
          simp
    · have htr : get_video_no_watermark_traced w = (some r1, [Strategy.ytdlp]) := by
        simp [get_video_no_watermark_traced, hav, h1]
      have hpl : get_video_no_watermark w = some r1 := by
        simp [get_video_no_watermark, hav, h1]
      refine ⟨?_, ?_, ?_, ?_⟩
      · rw [htr]
        show List.Sublist [Strategy.ytdlp]
          [Strategy.ytdlp, Strategy.pageScrape, Strategy.tikwmApi]
        exact List.Sublist.cons₂ _ (List.nil_sublist _)
      · rw [htr, hpl]
      · intro r _ hdl
        injection hdl with h3
        rw [htr, h3]
      · intro r _
        rw [htr]
        simp


theorem video_strategies_ordered_first_success_wins_witness :
    get_video_no_watermark_traced
        { ytdlp_available := true,
          ytdlp := some { url := some "u", formats := [], title := none,
                          uploader := none, duration := none, thumbnail := none },
          page := none, tikwm := none } =
      (some { video_url := some "u", music_url := none, title := "", author := "",
              duration := 0, cover := none }, [Strategy.ytdlp]) :=
  (video_strategies_ordered_first_success_wins _).2.2.1
    { video_url := some "u", music_url := none, title := "", author := "",
      duration := 0, cover := none } rfl (by decide)

/-- C5 counterexample: when yt-dlp is unavailable and the page scrape
fails, a tikwm reply with `code = 0` and a truthy `data` object that
carries neither `hdplay` nor `play` makes `get_video_no_watermark` return
a success record (`"error": False`) whose `video_url` is absent — method 3
performs no truthiness check on the media URL. -/
theorem video_success_without_media_url :
    get_video_no_watermark
        { ytdlp_available := false, ytdlp := none, page := none,
          tikwm := some { code := some 0,
                          data := some { hdplay := none, play := none, music := none,
                                         title := none, author_unique_id := none,
                                         duration := none, cover := none } } } =
      some { video_url := none, music_url := none, title := "", author := "",
             duration := 0, cover := none } := by decide

/-- C5 (amended): a success record returned by strategy 1 (yt-dlp) or
strategy 2 (page scrape) always carries a non-empty media URL — whenever
`get_video_no_watermark` succeeds without having invoked the tikwm
fallback, the returned `video_url` is present and non-empty; only the
tikwm fallback can produce a success record with an absent media URL. -/
theorem video_media_url_nonempty_unless_tikwm (w : VideoFetchWorld) (r : VideoResult)
    (h : get_video_no_watermark w = some r)
    (hnot : Strategy.tikwmApi ∉ (get_video_no_watermark_traced w).2) :
    truthyOpt r.video_url = true := by
  rcases h1 : (if w.ytdlp_available then _ytdlp_download w.ytdlp else none) with _ | r1
  · rcases h2 : scrape_video_page w.page with _ | r2
    · exfalso
      apply hnot
      simp [get_video_no_watermark_traced, h1, h2]
    · have hr : some r2 = some r := by
        simpa [get_video_no_watermark, h1, h2] using h
      injection hr with h3
      subst h3
      exact scrape_video_url_truthy _ _ h2
  · have hr : some r1 = some r := by
      simpa [get_video_no_watermark, h1] using h
    injection hr with h3
    subst h3
    by_cases hav : w.ytdlp_available = true
    · rw [if_pos hav] at h1
      exact ytdlp_video_url_truthy _ _ h1
    · rw [if_neg hav] at h1
      exact absurd h1 (by simp)

theorem video_media_url_nonempty_unless_tikwm_witness :
    truthyOpt ({ video_url := some "x", music_url := none, title := "", author := "",
                 duration := 0, cover := none } : VideoResult).video_url = true :=
  video_media_url_nonempty_unless_tikwm
    { ytdlp_available := false, ytdlp := none,
      page := some { downloadAddr := some "x", playAddr := none, musicPlayUrl := none,
                     desc := none, authorUniqueId := none, duration := none, cover := none },
      tikwm := none }
    { video_url := some "x", music_url := none, title := "", author := "",
      duration := 0, cover := none }
    (by decide) (by decide)

/-- C6: for every username input and every upstream behaviour on which
the page scrape yields no user info — transport exception, non-200
status, missing rehydration script tag, unparsable payload, absent or
falsy `userInfo`, or non-zero `statusCode` — `get_user_by_username`
returns the error outcome `{"error": True}`; no exception propagates (the
embedding is total, every `except` branch having been folded into the
failure value). -/
theorem user_lookup_err_on_scrape_failure (s : String) (w : ScrapeWorld)
    (h : _scrape_tiktok_page w = none) :
    get_user_by_username s w = UserLookupResult.err := by
  simp only [get_user_by_username, h]
  split <;> rfl

theorem user_lookup_err_on_scrape_failure_witness :
    get_user_by_username "someuser" ScrapeWorld.exception = UserLookupResult.err :=
  user_lookup_err_on_scrape_failure "someuser" ScrapeWorld.exception rfl

/-- C7 counterexample: the malformed profile URL
`"https://tiktok.com/video/123"` — it contains `tiktok.com` but no
`@username` segment the pattern can extract — produces exactly the same
outcome, the single `{"error": True}` value, as a well-formed username
whose upstream lookup fails: the code has no distinct `invalid_input`
outcome. -/
theorem user_lookup_invalid_url_same_as_not_found :
    get_user_by_username "https://tiktok.com/video/123" ScrapeWorld.exception =
      UserLookupResult.err ∧
    get_user_by_username "someotheruser" ScrapeWorld.exception = UserLookupResult.err ∧
    get_user_by_username "https://tiktok.com/video/123" ScrapeWorld.exception =
      get_user_by_username "someotheruser" ScrapeWorld.exception := by decide

/-- C7 (amended): for every input whose normalized form contains
`tiktok.com` but from which the pattern `tiktok\.com/@([^/?]+)` extracts
no username, `get_user_by_username` returns the error outcome immediately
and independently of any upstream behaviour (so before any I/O) — but
that outcome is the same `{"error": True}` value used for a failed
lookup, not a typed `invalid_input` failure distinct from `not_found`. -/
theorem user_lookup_malformed_url_early_err (s : String) (w w2 : ScrapeWorld)
    (hc : containsSub ("tiktok.com".toList) (normalizeInput s.toList) = true)
    (hre : reSearchUser (normalizeInput s.toList) = none) :
    get_user_by_username s w = UserLookupResult.err ∧
    get_user_by_username s w = get_user_by_username s w2 := by
  have key : ∀ w3 : ScrapeWorld, get_user_by_username s w3 = UserLookupResult.err := by
    intro w3
    simp only [get_user_by_username, hc, hre]
    rfl
  exact ⟨key w, (key w).trans (key w2).symm⟩

theorem user_lookup_malformed_url_early_err_witness :
    get_user_by_username "https://tiktok.com/notparsable" ScrapeWorld.exception =
      UserLookupResult.err ∧
    get_user_by_username "https://tiktok.com/notparsable" ScrapeWorld.exception =
      get_user_by_username "https://tiktok.com/notparsable"
        (ScrapeWorld.response 200 PageBody.noScriptTag) :=
  user_lookup_malformed_url_early_err "https://tiktok.com/notparsable"
    ScrapeWorld.exception (ScrapeWorld.response 200 PageBody.noScriptTag)
    (by decide) (by decide)

/-- C8 counterexample: normalizing the payload with `followerCount = 0`,
`createTime = 0` and `region` absent yields `followers = "0"` as the
claim states, but `created = "N/A"` and `region = "N/A"`: the fallback
string in the source is `"N/A"`, not `"unknown"`. -/
theorem format_user_fallback_is_na :
    (_format_user { UserDict.empty with createTime := some 0 }
        { StatsDict.empty with followerCount := some 0 }).followers = "0" ∧
    (_format_user { UserDict.empty with createTime := some 0 }
        { StatsDict.empty with followerCount := some 0 }).created = "N/A" ∧
    (_format_user { UserDict.empty with createTime := some 0 }
        { StatsDict.empty with followerCount := some 0 }).created ≠ "unknown" ∧
    (_format_user { UserDict.empty with createTime := some 0 }
        { StatsDict.empty with followerCount := some 0 }).region ≠ "unknown" := by decide

/-- C8 (amended): normalizing a payload with `followerCount = 0`,
`createTime = 0` and `region` absent yields a record with
`followers = "0"`, `created = "N/A"` and `region = "N/A"` (the source's
"N/A"-equivalent fallback, not the literal `"unknown"`), and every field
of the resulting record is defined, as the full record literal shows —
nothing is null or absent. -/
theorem format_user_fully_populated :
    _format_user { UserDict.empty with createTime := some 0 }
        { StatsDict.empty with followerCount := some 0 } =
      { username := "N/A", nickname := "N/A", user_id := "N/A", bio := "N/A",
        verified := false, privateAccount := false,
        followers := "0", following := "0", likes := "0", videos := "0",
        friends := "0", digg := "0",
        created := "N/A", region := "N/A", language := "N/A", bio_link := "N/A",
        profile_pic := "", profile_link := "https://www.tiktok.com/@",
        raw_user := { UserDict.empty with createTime := some 0 },
        raw_stats := { StatsDict.empty with followerCount := some 0 } } := by decide
